import Mathlib

/-
Shallow embedding of the OpenThread NTP client (src/source/c/ntp.h,
src/source/c/ntp.c).

Modelling conventions:
* The OpenThread transport collaborators (otUdpOpen, otUdpSend, otUdpClose,
  otUdpNewMessage, otMessageAppend, otIp6SubscribeMulticastAddress,
  otMessageRead) are external; each call site's outcome is passed in as an
  explicit parameter (an `OtError`, a `Bool` for allocation success, or the
  number of bytes an `otMessageRead` call returned).
* Machine integers are `Nat` with explicit `% 2 ^ w` where C would wrap.
  `ntp_client->tv.tv_sec` receives `(time_t)(txTm_s - NTP_TIMESTAMP_DELTA)`
  where `txTm_s` is `uint32_t` and the delta an `unsigned long long`, so the
  C subtraction is performed modulo 2^64; the model stores that 64-bit
  unsigned value (the final `time_t` cast is width/implementation dependent
  and never removes the wrap for pre-epoch inputs).
* `__ntohl` is modelled for a little-endian host as a 32-bit byte swap.
* Null pointers of the C API are modelled by explicit `Bool` flags
  (`instanceNull`, `clientNull`); the handler function pointer is an
  `Option Nat` (`none` = NULL), and the semantics a stored handler would
  have is a parameter `hf : ntp_client_t → ntp_client_t` since the C
  handler receives the client struct and may mutate it.
* Functions that may invoke the handler also return the list of client
  snapshots passed to handler invocations, so that when and with what state
  the handler is called is part of the model.
* In `ntp_client_recv` the source line 222 reads `ntp->client->state`; no
  identifier `ntp` is in scope there (the function's local is `ntp_client`,
  used on the neighbouring lines), so it is read as `ntp_client->state`.
* `_ntp_client_shutdown` in the source falls off the end without a `return`
  on the success path; its callers ignore that return value and read
  `ntp_client->error`, which the model keeps in the struct.
-/

/-- Subset of OpenThread `otError` codes used by the client, plus a generic
`FAILED` standing for any other transport failure code. -/
inductive OtError where
  | NONE
  | PARSE
  | ALREADY
  | INVALID_ARGS
  | NO_BUFS
  | FAILED
deriving DecidableEq

/-- The client states of ntp.h (NTP_CLIENT_INIT .. NTP_CLIENT_TIMEOUT). -/
inductive ClientState where
  | INIT
  | LISTEN
  | SENT
  | RECV
  | RECV_BC
  | ERR_TRUNC
  | ERR_BC_TRUNC
  | DONE
  | INT_ERR
  | COMM_ERR
  | TIMEOUT
deriving DecidableEq

/-- Numeric state codes from ntp.h (0x00, 0x10, 0x20, 0xa0, 0xb0, 0xe0,
0xeb, 0xf0, 0xf1, 0xfc, 0xff). -/
def stateCode : ClientState → Nat
  | ClientState.INIT => 0
  | ClientState.LISTEN => 16
  | ClientState.SENT => 32
  | ClientState.RECV => 160
  | ClientState.RECV_BC => 176
  | ClientState.ERR_TRUNC => 224
  | ClientState.ERR_BC_TRUNC => 235
  | ClientState.DONE => 240
  | ClientState.INT_ERR => 241
  | ClientState.COMM_ERR => 252
  | ClientState.TIMEOUT => 255

/-- `struct ntp_packet_t` of ntp.h: the 48-byte NTP wire packet. Each field
holds the host-side value of the corresponding C field. -/
structure ntp_packet_t where
  li : Nat
  vn : Nat
  mode : Nat
  stratum : Nat
  poll : Nat
  precision : Nat
  rootDelay : Nat
  rootDispersion : Nat
  refId : Nat
  refTm_s : Nat
  refTm_f : Nat
  origTm_s : Nat
  origTm_f : Nat
  rxTm_s : Nat
  rxTm_f : Nat
  txTm_s : Nat
  txTm_f : Nat
deriving DecidableEq

/-- An all-zero packet (result of `memset(..., 0, ...)`). -/
def zeroPacket : ntp_packet_t :=
  { li := 0, vn := 0, mode := 0, stratum := 0, poll := 0, precision := 0
  , rootDelay := 0, rootDispersion := 0, refId := 0
  , refTm_s := 0, refTm_f := 0, origTm_s := 0, origTm_f := 0
  , rxTm_s := 0, rxTm_f := 0, txTm_s := 0, txTm_f := 0 }

/-- `struct ntp_client_t` of ntp.h. `socketOpen` abstracts ownership of the
open `otUdpSocket` handle; `tv_sec`/`tv_usec` are the `struct timeval tv`
fields (`tv_sec` as the pre-cast 64-bit unsigned value, see header
comment). -/
structure ntp_client_t where
  handler : Option Nat
  handler_context : Nat
  socketOpen : Bool
  packet : ntp_packet_t
  tv_sec : Nat
  tv_usec : Nat
  error : OtError
  timeout : Nat
  state : ClientState
deriving DecidableEq

/-- A zeroed client (result of `memset(ntp_client, 0, sizeof ...)`):
NULL handler, zero context, no socket, zero packet, state `INIT` (0x00). -/
def zeroClient : ntp_client_t :=
  { handler := none, handler_context := 0, socketOpen := false
  , packet := zeroPacket, tv_sec := 0, tv_usec := 0
  , error := OtError.NONE, timeout := 0, state := ClientState.INIT }

/-- `ntp_client_is_done`: true when the state code is >= 0xf0. -/
def ntp_client_is_done (c : ntp_client_t) : Bool :=
  decide (240 ≤ stateCode c.state)

/-- 32-bit byte swap; model of `__ntohl` on a little-endian host. -/
def byteswap32 (x : Nat) : Nat :=
  x % 256 * 2 ^ 24 + x / 2 ^ 8 % 256 * 2 ^ 16
    + x / 2 ^ 16 % 256 * 2 ^ 8 + x / 2 ^ 24 % 256

/-- `__ntohl` from machine/endian.h. -/
def ntohl : Nat → Nat := byteswap32

/-- `NTP_TIMESTAMP_DELTA` (seconds between the 1900 and 1970 epochs). -/
def NTP_TIMESTAMP_DELTA : Nat := 2208988800

/-- `NTP_TS_FRAC_PER_US`: fractional units (1/2^32 s) per microsecond. -/
def NTP_TS_FRAC_PER_US : Nat := 4295

/-- `NTP_TIMEOUT`: the fixed timeout budget, in ticks of 0.1 s. -/
def NTP_TIMEOUT : Nat := 300

/-- `_ntp_client_shutdown` (ntp.c lines 95-102): `error = otUdpClose(...)`;
on failure the state becomes `INT_ERR` and the handle's release is
unconfirmed (so `socketOpen` is left as is); on success the handle is
closed. -/
def _ntp_client_shutdown (closeErr : OtError) (c : ntp_client_t) :
    ntp_client_t :=
  if closeErr ≠ OtError.NONE then
    { c with error := closeErr, state := ClientState.INT_ERR }
  else
    { c with error := OtError.NONE, socketOpen := false }

/-- `ntp_client_shutdown` (ntp.c lines 108-114): close, then force `DONE`
unless the state is already final; returns `ntp_client->error` (kept in the
struct). -/
def ntp_client_shutdown (closeErr : OtError) (c : ntp_client_t) :
    ntp_client_t :=
  let c1 := _ntp_client_shutdown closeErr c
  if ntp_client_is_done c1 then c1 else { c1 with state := ClientState.DONE }

/-- The request packet built by `ntp_client_begin`: zeroed except
li = 0, vn = 3, mode = 3. -/
def requestPacket : ntp_packet_t := { zeroPacket with vn := 3, mode := 3 }

/-- `ntp_client_begin` (ntp.c lines 126-208). Note the definition in ntp.c
takes only (instance, ntp_client, addr, port, ttl) — it has no
timeoutTicks, handler or handler_context parameter, although the ntp.h
prototype declares handler parameters. Environment outcomes: `openErr` for
`otUdpOpen`, `msgOk` for `otUdpNewMessage` returning non-NULL, `appendErr`
for `otMessageAppend`, `sendErr` for `otUdpSend`. Returns the C return
value paired with the updated client. -/
def ntp_client_begin (instanceNull clientNull : Bool) (openErr : OtError)
    (msgOk : Bool) (appendErr sendErr : OtError)
    (c : ntp_client_t) : OtError × ntp_client_t :=
  if instanceNull then (OtError.PARSE, c)
  else if clientNull then (OtError.PARSE, c)
  else if stateCode c.state ≠ 0 then (OtError.ALREADY, c)
  else
    let c1 := { zeroClient with packet := requestPacket, error := openErr }
    if openErr ≠ OtError.NONE then (openErr, c1)
    else
      let c2 := { c1 with socketOpen := true }
      if msgOk then
        let sendResult := if appendErr = OtError.NONE then sendErr
                          else appendErr
        if sendResult ≠ OtError.NONE then
          (sendResult, { c2 with error := sendResult
                               , state := ClientState.INT_ERR
                               , socketOpen := false })
        else
          (OtError.NONE, { c2 with error := OtError.NONE
                                 , timeout := NTP_TIMEOUT
                                 , state := ClientState.SENT })
      else
        (OtError.NO_BUFS, { c2 with error := OtError.NO_BUFS
                                  , state := ClientState.INT_ERR
                                  , socketOpen := false })

/-- `ntp_client_listen` (ntp.c lines 40-93). `subErr` is the outcome of
`otIp6SubscribeMulticastAddress`, `openErr` of `otUdpOpen`. The `handler`
and `handler_context` arguments are accepted but — exactly as in the
source, which never assigns `ntp_client->handler` — not stored. -/
def ntp_client_listen (instanceNull clientNull : Bool)
    (subErr openErr : OtError)
    (handler : Option Nat) (handler_context : Nat)
    (c : ntp_client_t) : OtError × ntp_client_t :=
  if instanceNull then (OtError.PARSE, c)
  else if clientNull then (OtError.PARSE, c)
  else if stateCode c.state ≠ 0 then (OtError.ALREADY, c)
  else
    let c1 := { zeroClient with error := subErr }
    if subErr = OtError.NONE ∨ subErr = OtError.ALREADY
        ∨ subErr = OtError.INVALID_ARGS then
      let c2 := { c1 with error := openErr }
      if openErr ≠ OtError.NONE then (openErr, c2)
      else (openErr, { c2 with socketOpen := true
                             , state := ClientState.LISTEN })
    else
      (subErr, c1)

/-- `ntp_client_recv` (ntp.c lines 214-239), the asynchronous inbound-data
callback. `incoming` is the content of the client's packet buffer after the
`otMessageRead` copy (the copy happens before the length check); `recvLen`
is the number of bytes that call returned. -/
def ntp_client_recv (incoming : ntp_packet_t) (recvLen : Nat)
    (c : ntp_client_t) : ntp_client_t :=
  if c.state ≠ ClientState.SENT ∧ c.state ≠ ClientState.LISTEN then c
  else
    let c1 := { c with packet := incoming }
    if recvLen < 48 then
      { c1 with state := if c.state = ClientState.SENT
                         then ClientState.ERR_TRUNC
                         else ClientState.ERR_BC_TRUNC }
    else
      { c1 with state := if c.state = ClientState.SENT
                         then ClientState.RECV
                         else ClientState.RECV_BC }

/-- The timestamp conversion of `ntp_client_recv_done` (ntp.c lines
260-280): byte-swap `txTm_s`/`txTm_f` in place, then
`tv.tv_sec = (time_t)(txTm_s - NTP_TIMESTAMP_DELTA)` (64-bit unsigned
subtraction, see header comment) and `tv.tv_usec = txTm_f / 4295`. -/
def recv_done_convert (c : ntp_client_t) : ntp_client_t :=
  let p := { c.packet with txTm_s := ntohl c.packet.txTm_s
                         , txTm_f := ntohl c.packet.txTm_f }
  { c with packet := p
         , tv_sec := (p.txTm_s + (2 ^ 64 - NTP_TIMESTAMP_DELTA)) % 2 ^ 64
         , tv_usec := p.txTm_f / NTP_TS_FRAC_PER_US }

/-- The final `switch (ntp_client->state)` of `ntp_client_recv_done`
(ntp.c lines 287-296): `RECV` becomes `DONE`, `RECV_BC` becomes `LISTEN`,
anything else is left alone. -/
def recv_done_switch (c : ntp_client_t) : ntp_client_t :=
  match c.state with
  | ClientState.RECV => { c with state := ClientState.DONE }
  | ClientState.RECV_BC => { c with state := ClientState.LISTEN }
  | _ => c

/-- The tail of `ntp_client_recv_done` after the unicast close: convert the
timestamp, call the handler if one is set (recording the snapshot it is
passed), then run the final state switch. -/
def recv_done_rest (hf : ntp_client_t → ntp_client_t) (c : ntp_client_t) :
    ntp_client_t × List ntp_client_t :=
  let c1 := recv_done_convert c
  match c1.handler with
  | some _ => (recv_done_switch (hf c1), [c1])
  | none => (recv_done_switch c1, [])

/-- `ntp_client_recv_done` (ntp.c lines 244-297). In state `RECV` the
socket is closed first and a failed close aborts (the state is already
`INT_ERR`); then the conversion, optional handler call and state switch
run. -/
def ntp_client_recv_done (hf : ntp_client_t → ntp_client_t)
    (closeErr : OtError) (c : ntp_client_t) :
    ntp_client_t × List ntp_client_t :=
  if c.state = ClientState.RECV then
    let c1 := _ntp_client_shutdown closeErr c
    if ntp_client_is_done c1 then (c1, []) else recv_done_rest hf c1
  else recv_done_rest hf c

/-- `ntp_client_recv_timeout` (ntp.c lines 302-311): close the socket; on
close failure the state is already final (`INT_ERR`) and is kept, otherwise
record `TIMEOUT`. -/
def ntp_client_recv_timeout (closeErr : OtError) (c : ntp_client_t) :
    ntp_client_t :=
  let c1 := _ntp_client_shutdown closeErr c
  if ntp_client_is_done c1 then c1
  else { c1 with state := ClientState.TIMEOUT }

/-- `ntp_client_process` (ntp.c lines 316-347), one tick. Returns the new
client and the list of handler-invocation snapshots made during the tick. -/
def ntp_client_process (hf : ntp_client_t → ntp_client_t)
    (closeErr : OtError) (c : ntp_client_t) :
    ntp_client_t × List ntp_client_t :=
  match c.state with
  | ClientState.SENT =>
      if c.timeout ≠ 0 then ({ c with timeout := c.timeout - 1 }, [])
      else (ntp_client_recv_timeout closeErr c, [])
  | ClientState.RECV => ntp_client_recv_done hf closeErr c
  | ClientState.RECV_BC => ntp_client_recv_done hf closeErr c
  | ClientState.ERR_TRUNC => ({ c with state := ClientState.COMM_ERR }, [])
  | ClientState.ERR_BC_TRUNC => ({ c with state := ClientState.LISTEN }, [])
  | _ => (c, [])

/-- `n` successive `ntp_client_process` ticks (handler snapshots
discarded). -/
def processIter (hf : ntp_client_t → ntp_client_t) (closeErr : OtError) :
    Nat → ntp_client_t → ntp_client_t
  | 0, c => c
  | n + 1, c => processIter hf closeErr n (ntp_client_process hf closeErr c).1

/-- An identity handler semantics, used for concrete scenarios. -/
def hfid : ntp_client_t → ntp_client_t := fun c => c

/-- Client used for the C1 amended-claim instantiation: a broadcast packet
whose transmit timestamp decodes to 5 seconds since 1900 (pre-Unix-epoch). -/
def wClientC1 : ntp_client_t :=
  { zeroClient with
      state := ClientState.RECV_BC,
      packet := { zeroPacket with txTm_s := byteswap32 5 } }

/-- Client used for the C5 instantiation: transmit timestamp
2208988800 + 100000 seconds since 1900, zero fraction. -/
def wClientC5 : ntp_client_t :=
  { zeroClient with
      state := ClientState.RECV_BC,
      packet := { zeroPacket with txTm_s := byteswap32 2209088800 } }

/-- A session sitting in `SENT` with two timeout ticks remaining. -/
def wClientSent2 : ntp_client_t :=
  { zeroClient with state := ClientState.SENT, timeout := 2 }

/-- A session sitting in `SENT` (used for the restart scenario of C8). -/
def wClientSent : ntp_client_t :=
  { zeroClient with state := ClientState.SENT }

/-- A finished session (state `DONE`). -/
def wClientDone : ntp_client_t :=
  { zeroClient with state := ClientState.DONE }

/-- A session with a unicast reply staged (state `RECV`). -/
def wClientRecv : ntp_client_t :=
  { zeroClient with state := ClientState.RECV }

/-- A broadcast session with a reply staged and a (hypothetical) non-NULL
handler pointer. -/
def wClientRecvBcH : ntp_client_t :=
  { zeroClient with state := ClientState.RECV_BC, handler := some 1 }

/-- A broadcast session that has just staged a truncated broadcast, with
the transport handle open. -/
def wClientBcT : ntp_client_t :=
  { zeroClient with state := ClientState.ERR_BC_TRUNC, socketOpen := true }

/-- A broadcast session with a full broadcast staged and the transport
handle open. -/
def wClientBcR : ntp_client_t :=
  { zeroClient with state := ClientState.RECV_BC, socketOpen := true }

theorem byteswap32_bytes (b0 b1 b2 b3 : Nat) (h0 : b0 < 256) (h1 : b1 < 256)
    (h2 : b2 < 256) (h3 : b3 < 256) :
    byteswap32 (b3 * 2 ^ 24 + b2 * 2 ^ 16 + b1 * 2 ^ 8 + b0)
      = b0 * 2 ^ 24 + b1 * 2 ^ 16 + b2 * 2 ^ 8 + b3 := by
  unfold byteswap32
  omega

theorem byteswap32_byteswap32 (x : Nat) (hx : x < 2 ^ 32) :
    byteswap32 (byteswap32 x) = x := by
  obtain ⟨b0, b1, b2, b3, h0, h1, h2, h3, rfl⟩ :
      ∃ b0 b1 b2 b3, b0 < 256 ∧ b1 < 256 ∧ b2 < 256 ∧ b3 < 256 ∧
        x = b3 * 2 ^ 24 + b2 * 2 ^ 16 + b1 * 2 ^ 8 + b0 :=
    ⟨x % 256, x / 2 ^ 8 % 256, x / 2 ^ 16 % 256, x / 2 ^ 24 % 256,
      by omega, by omega, by omega, by omega, by omega⟩
  rw [byteswap32_bytes _ _ _ _ h0 h1 h2 h3,
      byteswap32_bytes _ _ _ _ h3 h2 h1 h0]

theorem lem_process_recv_bc (hf : ntp_client_t → ntp_client_t) (e : OtError)
    (c : ntp_client_t) (hh : c.handler = none)
    (hst : c.state = ClientState.RECV_BC) :
    ntp_client_process hf e c =
      ({ c with
          packet := { c.packet with txTm_s := ntohl c.packet.txTm_s
                                  , txTm_f := ntohl c.packet.txTm_f }
        , tv_sec := (ntohl c.packet.txTm_s
              + (2 ^ 64 - NTP_TIMESTAMP_DELTA)) % 2 ^ 64
        , tv_usec := ntohl c.packet.txTm_f / NTP_TS_FRAC_PER_US
        , state := ClientState.LISTEN }, []) := by
  obtain ⟨h1, h2, h3, h4, h5, h6, h7, h8, h9⟩ := c
  dsimp only at hh hst
  subst hh hst
  simp [ntp_client_process, ntp_client_recv_done, recv_done_rest,
    recv_done_convert, recv_done_switch]

theorem lem_process_recv (hf : ntp_client_t → ntp_client_t)
    (c : ntp_client_t) (hh : c.handler = none)
    (hst : c.state = ClientState.RECV) :
    ntp_client_process hf OtError.NONE c =
      ({ c with
          packet := { c.packet with txTm_s := ntohl c.packet.txTm_s
                                  , txTm_f := ntohl c.packet.txTm_f }
        , tv_sec := (ntohl c.packet.txTm_s
              + (2 ^ 64 - NTP_TIMESTAMP_DELTA)) % 2 ^ 64
        , tv_usec := ntohl c.packet.txTm_f / NTP_TS_FRAC_PER_US
        , error := OtError.NONE
        , socketOpen := false
        , state := ClientState.DONE }, []) := by
  obtain ⟨h1, h2, h3, h4, h5, h6, h7, h8, h9⟩ := c
  dsimp only at hh hst
  subst hh hst
  simp [ntp_client_process, ntp_client_recv_done, recv_done_rest,
    recv_done_convert, recv_done_switch, _ntp_client_shutdown,
    ntp_client_is_done, stateCode]

theorem lem_sent_iter (hf : ntp_client_t → ntp_client_t) (e : OtError) :
    ∀ (n : Nat) (c : ntp_client_t), c.state = ClientState.SENT →
      c.timeout = n → processIter hf e n c = { c with timeout := 0 }
  | 0, c, hs, ht => by
      cases c
      simp only [processIter]
      simp_all
  | n + 1, c, hs, ht => by
      have hstep : (ntp_client_process hf e c).1 = { c with timeout := n } := by
        simp [ntp_client_process, hs, ht]
      have hrec := lem_sent_iter hf e n { c with timeout := n }
        (by simp [hs]) (by simp)
      simp only [processIter, hstep, hrec]

theorem processIter_succ (hf : ntp_client_t → ntp_client_t) (e : OtError) :
    ∀ (n : Nat) (c : ntp_client_t),
      processIter hf e (n + 1) c
        = (ntp_client_process hf e (processIter hf e n c)).1
  | 0, _ => rfl
  | n + 1, c => by
      simp only [processIter]
      exact processIter_succ hf e n _

theorem lem_sent_timeout (hf : ntp_client_t → ntp_client_t) (n : Nat)
    (c : ntp_client_t) (hs : c.state = ClientState.SENT)
    (ht : c.timeout = n) :
    processIter hf OtError.NONE (n + 1) c =
      { c with timeout := 0, error := OtError.NONE, socketOpen := false
             , state := ClientState.TIMEOUT } := by
  have hiter := lem_sent_iter hf OtError.NONE n c hs ht
  rw [processIter_succ, hiter]
  simp [ntp_client_process, hs, ntp_client_recv_timeout,
    _ntp_client_shutdown, ntp_client_is_done, stateCode]

/-- Claim C1, counterexample: a received broadcast packet whose transmit
timestamp is S = 0 seconds since 1900 (so S < 2208988800) is processed
without any failure: the wrapped 64-bit value 2^64 - 2208988800 is stored
as the session's result seconds, the session transitions to `LISTEN`
normally, no error is recorded and no handler is told — there is no
`TimeBeforeEpoch` error anywhere in the code. -/
theorem claim_C1_cex :
    (ntp_client_process hfid OtError.NONE
        { zeroClient with state := ClientState.RECV_BC }).1.tv_sec
      = 18446744071500562816
    ∧ (ntp_client_process hfid OtError.NONE
        { zeroClient with state := ClientState.RECV_BC }).1.state
      = ClientState.LISTEN
    ∧ (ntp_client_process hfid OtError.NONE
        { zeroClient with state := ClientState.RECV_BC }).1.error
      = OtError.NONE := by
  decide

/-- Claim C1, amended: for every transmit-timestamp seconds value
S < 2208988800, the conversion performed when `process()` handles a
received packet does NOT fail — the code has no `TimeBeforeEpoch` error
kind — instead the unsigned subtraction wraps and the wrapped value
S + 2^64 - 2208988800 is stored as the session's result seconds, the
session transitioning normally (here RecvBroadcast → Listen) with no
error recorded. -/
theorem claim_C1 (hf : ntp_client_t → ntp_client_t) (S : Nat)
    (c : ntp_client_t) (hS : S < NTP_TIMESTAMP_DELTA)
    (hh : c.handler = none) (hst : c.state = ClientState.RECV_BC)
    (hts : c.packet.txTm_s = byteswap32 S) :
    (ntp_client_process hf OtError.NONE c).1.tv_sec
        = S + (2 ^ 64 - NTP_TIMESTAMP_DELTA)
    ∧ 2 ^ 63 < (ntp_client_process hf OtError.NONE c).1.tv_sec
    ∧ (ntp_client_process hf OtError.NONE c).1.state = ClientState.LISTEN
    ∧ (ntp_client_process hf OtError.NONE c).1.error = c.error := by
  have hS32 : S < 2 ^ 32 := by
    simp only [NTP_TIMESTAMP_DELTA] at hS; omega
  have hswap : ntohl c.packet.txTm_s = S := by
    rw [hts]; exact byteswap32_byteswap32 S hS32
  have hres := lem_process_recv_bc hf OtError.NONE c hh hst
  rw [hswap] at hres
  rw [hres]
  dsimp only
  simp only [NTP_TIMESTAMP_DELTA] at hS ⊢
  exact ⟨by omega, by omega, by simp, by simp⟩

/-- Claim C1 witness: the amended theorem instantiated at S = 5 on a
concrete broadcast session. -/
theorem claim_C1_witness :
    (5 < NTP_TIMESTAMP_DELTA ∧ wClientC1.handler = none
      ∧ wClientC1.state = ClientState.RECV_BC
      ∧ wClientC1.packet.txTm_s = byteswap32 5)
    ∧ ((ntp_client_process hfid OtError.NONE wClientC1).1.tv_sec
        = 5 + (2 ^ 64 - NTP_TIMESTAMP_DELTA)
      ∧ 2 ^ 63 < (ntp_client_process hfid OtError.NONE wClientC1).1.tv_sec
      ∧ (ntp_client_process hfid OtError.NONE wClientC1).1.state
          = ClientState.LISTEN
      ∧ (ntp_client_process hfid OtError.NONE wClientC1).1.error
          = wClientC1.error) :=
  ⟨⟨by decide, by decide, by decide, by decide⟩,
    claim_C1 hfid 5 wClientC1 (by decide) (by decide) (by decide) (by decide)⟩

/-- Claim C5: for every transmit-timestamp seconds value S ≥ 2208988800 and
fraction F < 2^32, the conversion performed when `process()` handles a
received packet (state Recv with a successful close, or RecvBroadcast)
stores epoch seconds S - 2208988800 and microseconds F / 4295, the division
truncating (4295·usec ≤ F < 4295·(usec+1)), so the microseconds result
always lies in 0..999999. -/
theorem claim_C5 (hf : ntp_client_t → ntp_client_t) (S F : Nat)
    (c : ntp_client_t) (hS : NTP_TIMESTAMP_DELTA ≤ S) (hS32 : S < 2 ^ 32)
    (hF : F < 2 ^ 32) (hh : c.handler = none)
    (hst : c.state = ClientState.RECV_BC ∨ c.state = ClientState.RECV)
    (hts : c.packet.txTm_s = byteswap32 S)
    (htf : c.packet.txTm_f = byteswap32 F) :
    (ntp_client_process hf OtError.NONE c).1.tv_sec
        = S - NTP_TIMESTAMP_DELTA
    ∧ (ntp_client_process hf OtError.NONE c).1.tv_usec
        = F / NTP_TS_FRAC_PER_US
    ∧ NTP_TS_FRAC_PER_US * (ntp_client_process hf OtError.NONE c).1.tv_usec
        ≤ F
    ∧ F < NTP_TS_FRAC_PER_US
        * ((ntp_client_process hf OtError.NONE c).1.tv_usec + 1)
    ∧ (ntp_client_process hf OtError.NONE c).1.tv_usec ≤ 999999 := by
  have hswapS : ntohl c.packet.txTm_s = S := by
    rw [hts]; exact byteswap32_byteswap32 S hS32
  have hswapF : ntohl c.packet.txTm_f = F := by
    rw [htf]; exact byteswap32_byteswap32 F hF
  rcases hst with hst | hst
  · have hres := lem_process_recv_bc hf OtError.NONE c hh hst
    rw [hswapS, hswapF] at hres
    rw [hres]
    dsimp only
    simp only [NTP_TIMESTAMP_DELTA, NTP_TS_FRAC_PER_US] at hS ⊢
    exact ⟨by omega, by simp, by omega, by omega, by omega⟩
  · have hres := lem_process_recv hf c hh hst
    rw [hswapS, hswapF] at hres
    rw [hres]
    dsimp only
    simp only [NTP_TIMESTAMP_DELTA, NTP_TS_FRAC_PER_US] at hS ⊢
    exact ⟨by omega, by simp, by omega, by omega, by omega⟩

/-- Claim C5 witness: the theorem instantiated at S = 2208988800 + 100000,
F = 0 on a concrete broadcast session; the stored result is exactly
(100000, 0). -/
theorem claim_C5_witness :
    (NTP_TIMESTAMP_DELTA ≤ 2209088800 ∧ (2209088800 : Nat) < 2 ^ 32
      ∧ (0 : Nat) < 2 ^ 32 ∧ wClientC5.handler = none
      ∧ (wClientC5.state = ClientState.RECV_BC
          ∨ wClientC5.state = ClientState.RECV)
      ∧ wClientC5.packet.txTm_s = byteswap32 2209088800
      ∧ wClientC5.packet.txTm_f = byteswap32 0)
    ∧ ((ntp_client_process hfid OtError.NONE wClientC5).1.tv_sec
        = 2209088800 - NTP_TIMESTAMP_DELTA
      ∧ (ntp_client_process hfid OtError.NONE wClientC5).1.tv_usec
          = 0 / NTP_TS_FRAC_PER_US
      ∧ NTP_TS_FRAC_PER_US
          * (ntp_client_process hfid OtError.NONE wClientC5).1.tv_usec ≤ 0
      ∧ (0 : Nat) < NTP_TS_FRAC_PER_US
          * ((ntp_client_process hfid OtError.NONE wClientC5).1.tv_usec + 1)
      ∧ (ntp_client_process hfid OtError.NONE wClientC5).1.tv_usec
          ≤ 999999) :=
  ⟨⟨by decide, by decide, by decide, by decide, Or.inl (by decide),
      by decide, by decide⟩,
    claim_C5 hfid 2209088800 0 wClientC5 (by decide) (by decide) (by decide)
      (by decide) (Or.inl (by decide)) (by decide) (by decide)⟩

set_option maxRecDepth 8000 in
/-- Claim C2, counterexample: `ntp_client_begin` has no timeoutTicks
parameter; a successful begin stores the fixed budget NTP_TIMEOUT = 300,
and the resulting session, receiving no inbound data, is still in `SENT`
after 300 `process()` calls — `TIMEOUT` is only reached on call 301. -/
theorem claim_C2_cex :
    (ntp_client_begin false false OtError.NONE true OtError.NONE
        OtError.NONE zeroClient).1 = OtError.NONE
    ∧ (ntp_client_begin false false OtError.NONE true OtError.NONE
        OtError.NONE zeroClient).2.state = ClientState.SENT
    ∧ (ntp_client_begin false false OtError.NONE true OtError.NONE
        OtError.NONE zeroClient).2.timeout = 300
    ∧ (processIter hfid OtError.NONE 300
        (ntp_client_begin false false OtError.NONE true OtError.NONE
          OtError.NONE zeroClient).2).state = ClientState.SENT
    ∧ (processIter hfid OtError.NONE 301
        (ntp_client_begin false false OtError.NONE true OtError.NONE
          OtError.NONE zeroClient).2).state = ClientState.TIMEOUT := by
  decide

/-- Claim C2, amended: on a successful open and send, `ntp_client_begin`
stores the fixed timeout budget NTP_TIMEOUT = 300 (the ntp.c definition
takes no timeoutTicks argument) and transitions to `SENT`; a session in
`SENT` with stored budget N that receives no inbound data is still in
`SENT` with budget 0 after N `process()` calls and reaches `TIMEOUT` on
the (N+1)-th call, with the transport closed (close succeeding). -/
theorem claim_C2 (hf : ntp_client_t → ntp_client_t) (c0 c : ntp_client_t)
    (N : Nat) (h0 : c0.state = ClientState.INIT)
    (hs : c.state = ClientState.SENT) (ht : c.timeout = N) :
    (ntp_client_begin false false OtError.NONE true OtError.NONE
        OtError.NONE c0).1 = OtError.NONE
    ∧ (ntp_client_begin false false OtError.NONE true OtError.NONE
        OtError.NONE c0).2.state = ClientState.SENT
    ∧ (ntp_client_begin false false OtError.NONE true OtError.NONE
        OtError.NONE c0).2.timeout = NTP_TIMEOUT
    ∧ (processIter hf OtError.NONE N c).state = ClientState.SENT
    ∧ (processIter hf OtError.NONE N c).timeout = 0
    ∧ (processIter hf OtError.NONE (N + 1) c).state = ClientState.TIMEOUT
    ∧ (processIter hf OtError.NONE (N + 1) c).socketOpen = false := by
  have hcode : stateCode c0.state = 0 := by rw [h0]; rfl
  have hbegin :
      ntp_client_begin false false OtError.NONE true OtError.NONE
          OtError.NONE c0
        = (OtError.NONE,
            { zeroClient with packet := requestPacket, socketOpen := true
                            , timeout := NTP_TIMEOUT
                            , state := ClientState.SENT }) := by
    simp [ntp_client_begin, hcode, zeroClient]
  have hiter := lem_sent_iter hf OtError.NONE N c hs ht
  have htimeout := lem_sent_timeout hf N c hs ht
  rw [hbegin, hiter, htimeout]
  dsimp only
  exact ⟨rfl, rfl, rfl, hs, rfl, rfl, rfl⟩

/-- Claim C2 witness: the amended theorem instantiated at N = 2 on concrete
sessions. -/
theorem claim_C2_witness :
    (zeroClient.state = ClientState.INIT
      ∧ wClientSent2.state = ClientState.SENT ∧ wClientSent2.timeout = 2)
    ∧ ((ntp_client_begin false false OtError.NONE true OtError.NONE
          OtError.NONE zeroClient).1 = OtError.NONE
      ∧ (ntp_client_begin false false OtError.NONE true OtError.NONE
          OtError.NONE zeroClient).2.state = ClientState.SENT
      ∧ (ntp_client_begin false false OtError.NONE true OtError.NONE
          OtError.NONE zeroClient).2.timeout = NTP_TIMEOUT
      ∧ (processIter hfid OtError.NONE 2 wClientSent2).state
          = ClientState.SENT
      ∧ (processIter hfid OtError.NONE 2 wClientSent2).timeout = 0
      ∧ (processIter hfid OtError.NONE (2 + 1) wClientSent2).state
          = ClientState.TIMEOUT
      ∧ (processIter hfid OtError.NONE (2 + 1) wClientSent2).socketOpen
          = false) :=
  ⟨⟨by decide, by decide, by decide⟩,
    claim_C2 hfid zeroClient wClientSent2 2 (by decide) (by decide)
      (by decide)⟩

/-- Claim C3 (code-bug evidence): `ntp_client_listen` called with a
non-NULL handler (`some 7`) and context 42 succeeds (state `LISTEN`) yet
leaves the session's handler NULL and its context 0 — the source never
assigns them — so the handler is also still NULL after an inbound-data
delivery; and `ntp_client_begin` as defined in ntp.c does not even take
handler parameters, contradicting the ntp.h prototype and documentation. -/
theorem claim_C3 :
    (ntp_client_listen false false OtError.NONE OtError.NONE (some 7) 42
        zeroClient).1 = OtError.NONE
    ∧ (ntp_client_listen false false OtError.NONE OtError.NONE (some 7) 42
        zeroClient).2.state = ClientState.LISTEN
    ∧ (ntp_client_listen false false OtError.NONE OtError.NONE (some 7) 42
        zeroClient).2.handler = none
    ∧ (ntp_client_listen false false OtError.NONE OtError.NONE (some 7) 42
        zeroClient).2.handler_context = 0
    ∧ (ntp_client_recv zeroPacket 48
        (ntp_client_listen false false OtError.NONE OtError.NONE (some 7) 42
          zeroClient).2).handler = none := by
  decide

/-- Claim C4: the inbound-data event copies the received buffer into the
session's packet buffer and, when fewer than 48 bytes were read, moves
`SENT` to `ERR_TRUNC` and `LISTEN` to `ERR_BC_TRUNC` (otherwise to `RECV` /
`RECV_BC`); in every other state the event leaves the session untouched;
and from `ERR_TRUNC` the next `process()` tick moves the session to
`COMM_ERR`. -/
theorem claim_C4 (incoming : ntp_packet_t) (recvLen : Nat)
    (c : ntp_client_t) (hf : ntp_client_t → ntp_client_t) (e : OtError) :
    ntp_client_recv incoming recvLen c
      = (if c.state = ClientState.SENT then
          { c with packet := incoming
                 , state := if recvLen < 48 then ClientState.ERR_TRUNC
                            else ClientState.RECV }
        else if c.state = ClientState.LISTEN then
          { c with packet := incoming
                 , state := if recvLen < 48 then ClientState.ERR_BC_TRUNC
                            else ClientState.RECV_BC }
        else c)
    ∧ ntp_client_process hf e { c with state := ClientState.ERR_TRUNC }
        = ({ c with state := ClientState.COMM_ERR }, []) := by
  constructor
  · by_cases h1 : c.state = ClientState.SENT
    · simp only [ntp_client_recv, h1]
      simp
      split <;> rfl
    · by_cases h2 : c.state = ClientState.LISTEN
      · simp only [ntp_client_recv, h1, h2]
        simp [h1]
        split <;> rfl
      · simp [ntp_client_recv, h1, h2]
  · simp [ntp_client_process]

/-- With a (hypothetical) non-NULL handler stored and a broadcast reply
staged, one `process()` tick converts the timestamp, passes that snapshot
to the handler, and applies the final state switch to the handler's
result. -/
theorem lem_process_handler_bc (hf : ntp_client_t → ntp_client_t)
    (e : OtError) (hp : Nat) (c : ntp_client_t) (hh : c.handler = some hp)
    (hst : c.state = ClientState.RECV_BC) :
    ntp_client_process hf e c
      = (recv_done_switch (hf (recv_done_convert c)),
          [recv_done_convert c]) := by
  obtain ⟨f1, f2, f3, f4, f5, f6, f7, f8, f9⟩ := c
  dsimp only at hh hst
  subst hh hst
  simp [ntp_client_process, ntp_client_recv_done, recv_done_rest,
    recv_done_convert]

/-- With a non-NULL handler stored and a unicast reply staged, one
`process()` tick (close succeeding) closes the socket, converts, passes
the snapshot to the handler, and applies the final switch to the handler's
result. -/
theorem lem_process_handler_recv (hf : ntp_client_t → ntp_client_t)
    (hp : Nat) (c : ntp_client_t) (hh : c.handler = some hp)
    (hst : c.state = ClientState.RECV) :
    ntp_client_process hf OtError.NONE c
      = (recv_done_switch
            (hf (recv_done_convert (_ntp_client_shutdown OtError.NONE c))),
          [recv_done_convert (_ntp_client_shutdown OtError.NONE c)]) := by
  obtain ⟨f1, f2, f3, f4, f5, f6, f7, f8, f9⟩ := c
  dsimp only at hh hst
  subst hh hst
  simp [ntp_client_process, ntp_client_recv_done, recv_done_rest,
    recv_done_convert, _ntp_client_shutdown, ntp_client_is_done, stateCode]

/-- Claim C6 (code-bug evidence): a broadcast session does persist —
`ERR_BC_TRUNC` and `RECV_BC` both return to `LISTEN` with the transport
handle left open — but no handler is informed of the truncation failure
before (or after) the transition: the `ERR_BC_TRUNC` tick makes no handler
invocation at all, the `RECV_BC` tick makes none either for any reachable
session, and `ntp_client_listen` never stores the caller's handler in the
first place. -/
theorem claim_C6 :
    ntp_client_process hfid OtError.NONE wClientBcT
      = ({ wClientBcT with state := ClientState.LISTEN }, [])
    ∧ (ntp_client_process hfid OtError.NONE wClientBcR).1.state
        = ClientState.LISTEN
    ∧ (ntp_client_process hfid OtError.NONE wClientBcR).1.socketOpen = true
    ∧ (ntp_client_process hfid OtError.NONE wClientBcR).2 = []
    ∧ (ntp_client_listen false false OtError.NONE OtError.NONE (some 7) 42
        zeroClient).2.handler = none := by
  decide

/-- Claim C7: terminal states (`DONE`, `INT_ERR`, `COMM_ERR`, `TIMEOUT`,
exactly the codes ≥ 0xf0) are absorbing — `process()` is a no-op on them —
and `ntp_client_shutdown` (close succeeding) closes the transport, forces
the session to `DONE` unless it is already terminal, and is idempotent. -/
theorem claim_C7 (hf : ntp_client_t → ntp_client_t) (e : OtError)
    (c : ntp_client_t) (hterm : ntp_client_is_done c = true) :
    ntp_client_process hf e c = (c, [])
    ∧ (∀ c' : ntp_client_t, (ntp_client_shutdown OtError.NONE c').state
        = if ntp_client_is_done c' then c'.state else ClientState.DONE)
    ∧ (∀ c' : ntp_client_t,
        (ntp_client_shutdown OtError.NONE c').socketOpen = false)
    ∧ (∀ c' : ntp_client_t,
        ntp_client_shutdown OtError.NONE
            (ntp_client_shutdown OtError.NONE c')
          = ntp_client_shutdown OtError.NONE c') := by
  refine ⟨?_, ?_, ?_, ?_⟩
  · cases hst : c.state <;>
      simp_all [ntp_client_is_done, stateCode, ntp_client_process]
  · intro c'
    obtain ⟨f1, f2, f3, f4, f5, f6, f7, f8, f9⟩ := c'
    cases f9 <;>
      simp [ntp_client_shutdown, _ntp_client_shutdown, ntp_client_is_done,
        stateCode]
  · intro c'
    obtain ⟨f1, f2, f3, f4, f5, f6, f7, f8, f9⟩ := c'
    cases f9 <;>
      simp [ntp_client_shutdown, _ntp_client_shutdown, ntp_client_is_done,
        stateCode]
  · intro c'
    obtain ⟨f1, f2, f3, f4, f5, f6, f7, f8, f9⟩ := c'
    cases f9 <;>
      simp [ntp_client_shutdown, _ntp_client_shutdown, ntp_client_is_done,
        stateCode]

/-- Claim C7 witness: the theorem instantiated on a concrete finished
session. -/
theorem claim_C7_witness :
    ntp_client_is_done wClientDone = true
    ∧ ntp_client_process hfid OtError.FAILED wClientDone
        = (wClientDone, []) :=
  ⟨by decide,
    (claim_C7 hfid OtError.FAILED wClientDone (by decide)).1⟩

/-- Claim C8: calling `ntp_client_begin` on a session whose state is not
`INIT` returns OT_ERROR_ALREADY and leaves the whole session unchanged,
whatever the transport would have done. -/
theorem claim_C8 (openErr : OtError) (msgOk : Bool)
    (appendErr sendErr : OtError) (c : ntp_client_t)
    (h : c.state ≠ ClientState.INIT) :
    ntp_client_begin false false openErr msgOk appendErr sendErr c
      = (OtError.ALREADY, c) := by
  have hcode : stateCode c.state ≠ 0 := by
    cases hst : c.state <;> simp_all [stateCode]
  simp [ntp_client_begin, hcode]

/-- Claim C8 witness: a second begin on a session already in `SENT`. -/
theorem claim_C8_witness :
    wClientSent.state ≠ ClientState.INIT
    ∧ ntp_client_begin false false OtError.NONE true OtError.NONE
        OtError.NONE wClientSent = (OtError.ALREADY, wClientSent) :=
  ⟨by decide,
    claim_C8 OtError.NONE true OtError.NONE OtError.NONE wClientSent
      (by decide)⟩

/-- Claim C9: a transport-close failure escalates the session to
`INT_ERR` on every close site — the unicast receive path inside
`process()` (where the receive itself had succeeded; note the handler is
then never reached), the timeout path, and `ntp_client_shutdown`. -/
theorem claim_C9 (hf : ntp_client_t → ntp_client_t) (e : OtError)
    (c : ntp_client_t) (he : e ≠ OtError.NONE)
    (hr : c.state = ClientState.RECV) :
    (ntp_client_process hf e c).1.state = ClientState.INT_ERR
    ∧ (ntp_client_process hf e c).2 = []
    ∧ (∀ c' : ntp_client_t,
        (ntp_client_recv_timeout e c').state = ClientState.INT_ERR)
    ∧ (∀ c' : ntp_client_t,
        (ntp_client_shutdown e c').state = ClientState.INT_ERR) := by
  refine ⟨?_, ?_, ?_, ?_⟩
  · simp [ntp_client_process, hr, ntp_client_recv_done,
      _ntp_client_shutdown, he, ntp_client_is_done, stateCode]
  · simp [ntp_client_process, hr, ntp_client_recv_done,
      _ntp_client_shutdown, he, ntp_client_is_done, stateCode]
  · intro c'
    simp [ntp_client_recv_timeout, _ntp_client_shutdown, he,
      ntp_client_is_done, stateCode]
  · intro c'
    simp [ntp_client_shutdown, _ntp_client_shutdown, he,
      ntp_client_is_done, stateCode]

/-- Claim C9 witness: the theorem instantiated with a failing close on a
concrete staged-reply session, plus the timeout and shutdown sites at a
concrete session. -/
theorem claim_C9_witness :
    (OtError.FAILED ≠ OtError.NONE
      ∧ wClientRecv.state = ClientState.RECV)
    ∧ ((ntp_client_process hfid OtError.FAILED wClientRecv).1.state
        = ClientState.INT_ERR
      ∧ (ntp_client_process hfid OtError.FAILED wClientRecv).2 = []
      ∧ (ntp_client_recv_timeout OtError.FAILED zeroClient).state
          = ClientState.INT_ERR
      ∧ (ntp_client_shutdown OtError.FAILED zeroClient).state
          = ClientState.INT_ERR) :=
  ⟨⟨by decide, by decide⟩,
    by
      have h := claim_C9 hfid OtError.FAILED wClientRecv (by decide)
        (by decide)
      exact ⟨h.1, h.2.1, h.2.2.1 zeroClient, h.2.2.2 zeroClient⟩⟩

/-- Claim C10: whenever `process()` invokes the session handler after a
successful decode, the handler observes the session still in its
pre-transition receive state (`RECV` or `RECV_BC`) with the converted
epoch time already stored in the result timeval, and the transition to
`DONE` / back to `LISTEN` (the final switch) is applied only to the state
as the handler left it, i.e. after the handler returns. -/
theorem claim_C10 (hf : ntp_client_t → ntp_client_t) (hp : Nat)
    (e : OtError) (c : ntp_client_t) (hh : c.handler = some hp)
    (hst : c.state = ClientState.RECV_BC
           ∨ (c.state = ClientState.RECV ∧ e = OtError.NONE)) :
    ∃ snap : ntp_client_t,
      (ntp_client_process hf e c).2 = [snap]
      ∧ snap.state = c.state
      ∧ snap.handler = some hp
      ∧ snap.tv_sec
          = (ntohl c.packet.txTm_s + (2 ^ 64 - NTP_TIMESTAMP_DELTA))
              % 2 ^ 64
      ∧ snap.tv_usec = ntohl c.packet.txTm_f / NTP_TS_FRAC_PER_US
      ∧ (ntp_client_process hf e c).1 = recv_done_switch (hf snap) := by
  rcases hst with hst | ⟨hst, he⟩
  · rw [lem_process_handler_bc hf e hp c hh hst]
    refine ⟨recv_done_convert c, rfl, ?_, ?_, ?_, ?_, rfl⟩ <;>
      simp [recv_done_convert, hst, hh]
  · subst he
    rw [lem_process_handler_recv hf hp c hh hst]
    refine ⟨recv_done_convert (_ntp_client_shutdown OtError.NONE c),
      rfl, ?_, ?_, ?_, ?_, rfl⟩ <;>
      simp [recv_done_convert, _ntp_client_shutdown, hst, hh]

/-- Claim C10 witness: the theorem instantiated on a concrete broadcast
session carrying handler pointer 1 with identity handler semantics. -/
theorem claim_C10_witness :
    (wClientRecvBcH.handler = some 1
      ∧ (wClientRecvBcH.state = ClientState.RECV_BC
          ∨ (wClientRecvBcH.state = ClientState.RECV
              ∧ OtError.NONE = OtError.NONE)))
    ∧ (∃ snap : ntp_client_t,
        (ntp_client_process hfid OtError.NONE wClientRecvBcH).2 = [snap]
        ∧ snap.state = wClientRecvBcH.state
        ∧ snap.handler = some 1
        ∧ snap.tv_sec
            = (ntohl wClientRecvBcH.packet.txTm_s
                + (2 ^ 64 - NTP_TIMESTAMP_DELTA)) % 2 ^ 64
        ∧ snap.tv_usec
            = ntohl wClientRecvBcH.packet.txTm_f / NTP_TS_FRAC_PER_US
        ∧ (ntp_client_process hfid OtError.NONE wClientRecvBcH).1
            = recv_done_switch (hfid snap)) :=
  ⟨⟨by decide, Or.inl (by decide)⟩,
    claim_C10 hfid 1 OtError.NONE wClientRecvBcH (by decide)
      (Or.inl (by decide))⟩
